import Mathlib

/-!
Verification of the job-scout backend (`src/backend/main.py`) against its
specification.  The Python source is shallowly embedded: dictionaries of job
fields become a structure, Python strings become `String` (with the relevant
`str` operations re-implemented over the character list), floats for salary
amounts become an inductive with a `nan` constructor (only order comparisons
at integer thresholds occur, never float arithmetic), exceptions become
`Except`, and the external network calls (`jobspy.scrape_jobs`, the USAJOBS
HTTP request) become oracle function parameters.
-/

deriving instance DecidableEq for Except

namespace JobScout

open scoped List

/-- A Python float-or-None salary field: `None`, a finite value, or `NaN`.
Only comparisons against integer thresholds occur in the program, so finite
values are carried as integers. -/
inductive Num where
  | null
  | val (x : Int)
  | nan
deriving DecidableEq, Repr

/-- A Python `date_posted` field: `None`, a `datetime` object (carrying the
string its `isoformat()` produces), or an already-serialized string. -/
inductive DateVal where
  | null
  | dt (iso : String)
  | s (text : String)
deriving DecidableEq, Repr

/-- The canonical job record (a Python dict in the source).  Source-provided
fields first; the `_`-prefixed extension fields written by the pipeline are
modelled as `Option` fields (`none` = key absent from the dict). -/
structure Job where
  site : String := ""
  title : String := ""
  company : String := ""
  location : String := ""
  job_url : String := ""
  description : String := ""
  date_posted : DateVal := .null
  min_amount : Num := .null
  max_amount : Num := .null
  interval : String := ""
  job_type : String := ""
  score : Option Int := none
  is_manager : Option Bool := none
  is_senior_ic : Option Bool := none
  large_company : Option Bool := none
  govt_job : Option Bool := none
  remote_validated : Option Bool := none
  high_salary : Option Bool := none
  location_name : Option String := none
deriving DecidableEq, Repr

/-- The ten source-provided fields named by the frame-invariant claim. -/
structure SourceView where
  title : String
  company : String
  location : String
  job_url : String
  description : String
  date_posted : DateVal
  min_amount : Num
  max_amount : Num
  interval : String
  job_type : String
deriving DecidableEq, Repr

/-- Projection of a record onto its source-provided fields. -/
def srcView (j : Job) : SourceView :=
  ⟨j.title, j.company, j.location, j.job_url, j.description, j.date_posted,
   j.min_amount, j.max_amount, j.interval, j.job_type⟩

/-! ### Python string operations -/

/-- Substring test on character lists: `needle` occurs as a contiguous run
of `hay`. -/
def substrIn (needle : List Char) : List Char → Bool
  | [] => needle.isEmpty
  | c :: rest => needle.isPrefixOf (c :: rest) || substrIn needle rest

/-- Python `needle in hay` (substring test). -/
def pyIn (needle hay : String) : Bool :=
  substrIn needle.data hay.data

/-- Python `s.lower()` (ASCII case folding, as used by the data of this program). -/
def pyLower (s : String) : String :=
  ⟨s.data.map Char.toLower⟩

/-- Python `s.strip()`. -/
def pyStrip (s : String) : String :=
  ⟨((s.data.dropWhile Char.isWhitespace).reverse.dropWhile Char.isWhitespace).reverse⟩

/-- Python `s.endswith(suffix)`. -/
def pyEndsWith (s suffix : String) : Bool :=
  suffix.data.isSuffixOf s.data

/-! ### `parse_since_when` (main.py lines 139-147) -/

/-- Numeric value of a decimal digit character. -/
def digitVal (c : Char) : Nat := c.toNat - 48

/-- Decimal value of a digit string. -/
def decVal (cs : List Char) : Nat :=
  cs.foldl (fun a c => a * 10 + digitVal c) 0

/-- Python `int(s)` restricted to the shapes this program feeds it: a
non-empty all-digit string parses to its decimal value, anything else raises
(`none`). -/
def pyInt (cs : List Char) : Option Nat :=
  if cs ≠ [] ∧ cs.all Char.isDigit then some (decVal cs) else none

/-- `parse_since_when`: convert `"1d"` / `"2w"` to hours.  `int(s[:-1])` may
raise, hence `Option`; an unrecognized unit falls back to 24. -/
def parse_since_when (since_when : String) : Option Nat :=
  match pyInt since_when.data.dropLast with
  | none => none
  | some value =>
    match since_when.data.getLast? with
    | some 'd' => some (value * 24)
    | some 'w' => some (value * 24 * 7)
    | _ => some 24

/-! ### `filter_jobs` (lines 286-297) -/

/-- `filter_jobs`: drop jobs whose (lowercased) title contains any excluded
keyword; with an empty exclude list the input is returned unchanged. -/
def filter_jobs (jobs : List Job) (exclude_list : List String) : List Job :=
  if exclude_list.isEmpty then jobs
  else
    let exclude_lower := exclude_list.map pyLower
    jobs.filter (fun job => !(exclude_lower.any (fun exc => pyIn exc (pyLower job.title))))

/-! ### `dedupe_jobs` (lines 493-504) -/

/-- Loop of `dedupe_jobs` with the `seen` set made explicit. -/
def dedupeAux : List String → List Job → List Job
  | _, [] => []
  | seen, job :: rest =>
    let url := job.job_url
    if url ≠ "" ∧ url ∉ seen then job :: dedupeAux (url :: seen) rest
    else if url = "" then job :: dedupeAux seen rest
    else dedupeAux seen rest

/-- `dedupe_jobs`: keep the first occurrence per non-empty `job_url`; jobs
with a falsy (empty/missing) URL are always kept. -/
def dedupe_jobs (jobs : List Job) : List Job :=
  dedupeAux [] jobs

/-! ### `score_jobs` (lines 300-414) -/

/-- The keyword lists read from `CONFIG["scoring"]`, with the Python
defaults used when a key is absent. -/
structure Scoring where
  mgmt_titles : List String
  senior_ic_titles : List String
  preferred_titles : List String
  bad_titles : List String
  good_locations : List String
  good_skills : List String
  red_flags : List String
  large_companies : List String
deriving DecidableEq, Repr

/-- The built-in scoring defaults (the fallback lists in `score_jobs`). -/
def defaultScoring : Scoring where
  mgmt_titles := ["manager", "director", "head of", "vp ", "vice president"]
  senior_ic_titles := ["senior", "sr.", "sr ", "lead", "principal", "staff"]
  preferred_titles := []
  bad_titles := ["developer", "software engineer", "product manager", "project manager",
    "data engineer", "machine learning", "ml ", "ai ", "analytics",
    "financial system", "business system", "hris", "erp", "salesforce",
    "mainframe", "z/os", "as/400", "cobol",
    "expense", "budget", "accounting", "credit", "risk analyst",
    "marketing", "sales engineer", "solutions architect", "pre-sales",
    "recruiting", "talent", "hr ", "human resource"]
  good_locations := ["remote"]
  good_skills := ["terraform", "ansible", "kubernetes", "docker", "aws", "azure", "gcp"]
  red_flags := ["contract to hire", "c2h"]
  large_companies := ["amazon", "aws", "google", "microsoft", "meta", "facebook", "apple",
    "netflix", "nvidia", "oracle", "ibm", "cisco", "intel", "salesforce", "adobe",
    "accenture", "deloitte", "kpmg", "pwc", "cognizant", "infosys",
    "wipro", "tcs", "capgemini", "dxc", "hcl",
    "robert half", "randstad", "manpower", "kelly services", "adecco",
    "insight global", "teksystems", "apex systems"]

/-- Body of the `for job in jobs` loop of `score_jobs`: compute the score and
write the extension fields of one record.  `_large_company` / `_govt_job` are
only assigned when their condition holds (otherwise the dict key stays
absent, i.e. the field keeps its previous value). -/
def scoreOne (sc : Scoring) (job : Job) : Job :=
  let title := pyLower job.title
  let description := pyLower job.description
  let location := pyLower job.location
  let company := pyLower job.company
  let text := title ++ " " ++ description ++ " " ++ company
  let is_manager := sc.mgmt_titles.any (fun kw => pyIn kw title)
  let is_senior_ic := sc.senior_ic_titles.any (fun kw => pyIn kw title) && !is_manager
  let score : Int := if is_manager then 25 else if is_senior_ic then 10 else -10
  let score := if !sc.preferred_titles.isEmpty
                  && sc.preferred_titles.any (fun kw => pyIn kw title)
               then score + 15 else score
  let score := if sc.bad_titles.any (fun kw => pyIn kw title) then score - 20 else score
  let score := if sc.good_locations.any (fun loc => pyIn loc location) then score + 10 else score
  let score := if pyIn "remote" location || pyIn "remote" title then score + 10 else score
  let score := sc.good_skills.foldl
    (fun s skill => if pyIn skill description then s + 5 else s) score
  let score := sc.red_flags.foldl
    (fun s flag => if pyIn flag text then s - 10 else s) score
  let is_large_company := sc.large_companies.any (fun lc => pyIn lc company)
  let score := if is_large_company then score - 5 else score
  let site := pyLower job.site
  let score := if site = "usajobs" then score + 10 else score
  { job with
    large_company := if is_large_company then some true else job.large_company,
    govt_job := if site = "usajobs" then some true else job.govt_job,
    score := some score,
    is_manager := some is_manager,
    is_senior_ic := some is_senior_ic }

/-- The scoring pass of `score_jobs` before the final `sorted(...)` call. -/
def scoreList (sc : Scoring) (jobs : List Job) : List Job :=
  jobs.map (scoreOne sc)

/-- The sort key of `sorted(jobs, key=lambda x: x.get("_score", 0),
reverse=True)`. -/
def scoreKey (j : Job) : Int :=
  j.score.getD 0

/-- The descending-by-key order of that `sorted(..., reverse=True)` call:
`a` may precede `b` exactly when the key of `a` is not smaller. -/
def scoreRel (a b : Job) : Prop :=
  scoreKey b ≤ scoreKey a

instance : DecidableRel scoreRel :=
  fun a b => inferInstanceAs (Decidable (scoreKey b ≤ scoreKey a))

/-- `score_jobs`: score every record, then stably sort descending by
`_score` (the `sorted` builtin of Python is a stable sort, embedded as the stable
`insertionSort`; `include_list` is accepted but unused, exactly as in the
source). -/
def score_jobs (sc : Scoring) (include_list : List String) (jobs : List Job) : List Job :=
  (scoreList sc jobs).insertionSort scoreRel

/-! ### `validate_remote_jobs` (lines 417-479) -/

/-- Generic locations that are OK for remote searches. -/
def generic_locations : List String :=
  ["remote", "usa", "united states", "anywhere", "work from home", "wfh", "nationwide"]

/-- State abbreviations used to detect specific locations. -/
def state_abbrevs : List String :=
  ["al", "ak", "az", "ar", "ca", "co", "ct", "de", "fl", "ga",
   "hi", "id", "il", "in", "ia", "ks", "ky", "la", "me", "md",
   "ma", "mi", "mn", "ms", "mo", "mt", "ne", "nv", "nh", "nj",
   "nm", "ny", "nc", "nd", "oh", "ok", "or", "pa", "ri", "sc",
   "sd", "tn", "tx", "ut", "vt", "va", "wa", "wv", "wi", "wy", "dc"]

/-- Python `x or 0` on a salary field: `None` becomes `0`; `NaN` is truthy
and stays. -/
def orZero : Num → Num
  | .null => .val 0
  | n => n

/-- Python `a > b` on floats: false whenever either side is `NaN`. -/
def numGT : Num → Num → Bool
  | .val a, .val b => decide (b < a)
  | _, _ => false

/-- Python `max(a, b)`: returns `b` only when `b > a`. -/
def pyMax (a b : Num) : Num :=
  if numGT b a then b else a

/-- Python `salary >= threshold`: false for `NaN` (and `None` never reaches
this comparison). -/
def numGE (s : Num) (t : Int) : Bool :=
  match s with
  | .val x => decide (t ≤ x)
  | _ => false

/-- The salary `validate_remote_jobs` compares against the threshold:
`max(job.get("min_amount") or 0, job.get("max_amount") or 0)`. -/
def maxSalary (job : Job) : Num :=
  pyMax (orZero job.min_amount) (orZero job.max_amount)

/-- The per-record decision of `validate_remote_jobs`: `some` of the
(possibly flag-augmented) record when it is kept, `none` when filtered out. -/
def validateJob (salary_threshold : Int) (job : Job) : Option Job :=
  let location := pyStrip (pyLower job.location)
  if location = "" then
    some { job with remote_validated := some true }
  else if generic_locations.any (fun gen => pyIn gen location) then
    some { job with remote_validated := some true }
  else if numGE (maxSalary job) salary_threshold then
    some { job with remote_validated := some false, high_salary := some true }
  else
    let has_state := state_abbrevs.any (fun st =>
      pyIn (", " ++ st) (", " ++ location) || pyEndsWith location (" " ++ st))
    if has_state || pyIn "," location then none
    else some { job with remote_validated := some true }

/-- `validate_remote_jobs`: filter out specific-location jobs when searching
remote (the Python default `salary_threshold=150000` is passed explicitly by
callers here). -/
def validate_remote_jobs (jobs : List Job) (salary_threshold : Int) : List Job :=
  jobs.filterMap (validateJob salary_threshold)

/-! ### `clean_job_data` (lines 482-490) -/

/-- NaN replacement of `clean_job_data` on a salary field. -/
def cleanNum : Num → Num
  | .nan => .null
  | n => n

/-- Datetime serialization of `clean_job_data` on the date field. -/
def cleanDate : DateVal → DateVal
  | .dt iso => .s iso
  | d => d

/-- Per-record body of `clean_job_data`: the float/datetime-valued keys are
the salary bounds and `date_posted`; every other key holds a string, bool,
int or None and is untouched. -/
def cleanJob (job : Job) : Job :=
  { job with
    min_amount := cleanNum job.min_amount,
    max_amount := cleanNum job.max_amount,
    date_posted := cleanDate job.date_posted }

/-- `clean_job_data`: sanitize every record for JSON serialization. -/
def clean_job_data (jobs : List Job) : List Job :=
  jobs.map cleanJob

/-- The sanitization of `clean_job_data` restricted to the source-provided
fields. -/
def cleanSrc (v : SourceView) : SourceView :=
  { v with
    min_amount := cleanNum v.min_amount,
    max_amount := cleanNum v.max_amount,
    date_posted := cleanDate v.date_posted }

/-! ### Requests, configuration and the external-call oracles -/

/-- `JobRequest` (the pydantic model).  `Option` marks the fields that may be
`None`; pydantic has already pattern-checked nothing except the shape-only
shape at this level, which we keep as a raw string. -/
structure JobRequest where
  sinceWhen : String
  keywords : Option (List String) := none
  excludeKeywords : Option (List String) := none
  isRemote : Option Bool := none
  location : Option String := none
  distance : Option Int := some 50
  requireAllKeywords : Bool := false
  limit : Nat := 10
deriving DecidableEq, Repr

/-- `JobResponse`. -/
structure JobResponse where
  error : Bool
  jobs : List Job
  locations_searched : Option (List String) := none
deriving DecidableEq, Repr

/-- One entry of `CONFIG["locations"]` — a dict read with `.get` and
defaults, so every field is optional. -/
structure LocationSpec where
  name : Option String := none
  is_remote : Option Bool := none
  location : Option String := none
  distance : Option Int := none
deriving DecidableEq, Repr

/-- The parts of the process-wide `CONFIG` dict the pipeline reads. -/
structure Config where
  sites : List String := ["indeed", "linkedin", "glassdoor", "zip_recruiter", "google"]
  country_indeed : String := "USA"
  linkedin_fetch_description : Bool := false
  verbose : Int := 1
  results_wanted : Int := 50
  locations : List LocationSpec := []
  exclude_keywords : List String := []
  include_keywords : List String := []
  scoring : Scoring := defaultScoring
  usajobs_enabled : Bool := false
  usajobs_api_key : Option String := none
deriving DecidableEq, Repr

/-- The keyword arguments `scrape_single_location` passes to the external
`jobspy.scrape_jobs` call.  `Option` fields are keys only present on some
paths. -/
structure ScrapeParams where
  site_name : List String
  search_term : String
  country_indeed : String
  results_wanted : Int
  hours_old : Int
  linkedin_fetch_description : Bool
  verbose : Int
  is_remote : Option Bool := none
  location : Option String := none
  distance : Option Int := none
deriving DecidableEq, Repr

/-- The external `jobspy.scrape_jobs` call: an oracle that either returns
records or raises. -/
def ScrapeOracle := ScrapeParams → Except String (List Job)

/-- The arguments of a `scrape_usajobs` call. -/
structure UsaParams where
  search_term : String
  hours_old : Int
  results_wanted : Int
  is_remote : Bool
  location : Option String
  distance : Int
deriving DecidableEq, Repr

/-- `scrape_usajobs` catches every exception internally and returns a plain
list, so its oracle is total. -/
def UsaOracle := UsaParams → List Job

/-! ### `scrape_single_location` (lines 150-178) -/

/-- `scrape_single_location`: build the parameter dict and delegate to the
external scraper.  There is no `try`/`except` in this function — an
exception from `scrape_jobs` propagates to the caller. -/
def scrape_single_location (scrape : ScrapeOracle) (cfg : Config)
    (search_term : String) (hours_old : Int) (results_wanted : Int)
    (is_remote : Bool) (location : Option String) (distance : Int) :
    Except String (List Job) :=
  let base : ScrapeParams :=
    { site_name := cfg.sites, search_term, country_indeed := cfg.country_indeed,
      results_wanted, hours_old,
      linkedin_fetch_description := cfg.linkedin_fetch_description,
      verbose := cfg.verbose }
  let params :=
    if is_remote then { base with is_remote := some true }
    else
      match location with
      | some l =>
        if l ≠ "" then { base with location := some l, distance := some distance }
        else { base with location := some "United States" }
      | none => { base with location := some "United States" }
  scrape params

/-! ### Request handlers (lines 507-566 and 569-678) -/

/-- Python `request.keywords` truthiness: a non-`None`, non-empty list. -/
def keywordsTruthy (ks : Option (List String)) : Bool :=
  match ks with
  | some l => !l.isEmpty
  | none => false

/-- `" ".join(request.keywords) if request.keywords else "software engineer"`. -/
def buildSearchTerm (ks : Option (List String)) : String :=
  match ks with
  | some l => if !l.isEmpty then " ".intercalate l else "software engineer"
  | none => "software engineer"

/-- Python `x or d` on an optional integer (`None` and `0` are falsy). -/
def pyOrInt (v : Option Int) (d : Int) : Int :=
  match v with
  | some x => if x = 0 then d else x
  | none => d

/-- The AND-mode filter: keep records whose title or description contains
every requested keyword (case-insensitive). -/
def andFilter (keywords : List String) (jobs : List Job) : List Job :=
  let keywords_lower := keywords.map pyLower
  jobs.filter (fun job => keywords_lower.all (fun kw =>
    pyIn kw (pyLower job.title) || pyIn kw (pyLower job.description)))

/-- Python truthiness of `CONFIG.get("usajobs_api_key")`. -/
def apiKeyTruthy (k : Option String) : Bool :=
  match k with
  | some s => s ≠ ""
  | none => false

/-- Body of the `try` block of the `/get-jobs` handler: any uncaught
exception surfaces as `Except.error`. -/
def get_jobs_core (cfg : Config) (scrape : ScrapeOracle) (usa : UsaOracle)
    (request : JobRequest) : Except String JobResponse := do
  let hours_old ← match parse_since_when request.sinceWhen with
    | some h => pure (h : Int)
    | none => throw "ValueError: invalid literal for int()"
  let search_term := buildSearchTerm request.keywords
  let jobs ← scrape_single_location scrape cfg search_term hours_old
    (request.limit : Int) (request.isRemote.getD false) request.location
    (pyOrInt request.distance 50)
  -- USAJOBS extension: guarded by config, and wrapped in its own
  -- try/except (the oracle is total, so the except branch is dead here).
  let jobs := jobs ++
    (if cfg.usajobs_enabled && apiKeyTruthy cfg.usajobs_api_key then
      usa { search_term, hours_old, results_wanted := (request.limit : Int),
            is_remote := request.isRemote.getD false,
            location := request.location, distance := pyOrInt request.distance 50 }
     else [])
  let jobs := if request.isRemote.getD false then validate_remote_jobs jobs 150000 else jobs
  let exclude_list := (request.excludeKeywords.getD []) ++ cfg.exclude_keywords
  let jobs := filter_jobs jobs exclude_list
  let jobs := if request.requireAllKeywords && keywordsTruthy request.keywords then
      andFilter (request.keywords.getD []) jobs
    else jobs
  let jobs := score_jobs cfg.scoring cfg.include_keywords jobs
  let jobs := clean_job_data jobs
  pure { error := false, jobs := jobs.take request.limit }

/-- The `/get-jobs` handler: the whole body sits in a `try`; any exception
becomes `JobResponse(error=True, jobs=[])`, returned with HTTP success. -/
def get_jobs (cfg : Config) (scrape : ScrapeOracle) (usa : UsaOracle)
    (request : JobRequest) : JobResponse :=
  match get_jobs_core cfg scrape usa request with
  | .ok r => r
  | .error _ => { error := true, jobs := [] }

/-- The location list `search_all` iterates: the configured locations, or a
single default derived from the request when none are configured. -/
def searchLocations (cfg : Config) (request : JobRequest) : List LocationSpec :=
  if cfg.locations.isEmpty then
    match request.location with
    | some l =>
      if l ≠ "" then
        [{ name := some l, location := some l, distance := some (pyOrInt request.distance 50) }]
      else [{ name := some "default", is_remote := some (request.isRemote.getD false) }]
    | none => [{ name := some "default", is_remote := some (request.isRemote.getD false) }]
  else cfg.locations

/-- The per-location `try` block of the first loop of `search_all`: scrape,
remote-validate when the `is_remote` flag of this location is set, tag with the
location name.  Any exception is logged and the location contributes
nothing. -/
def search_location_step (scrape : ScrapeOracle) (cfg : Config)
    (search_term : String) (hours_old : Int) (loc : LocationSpec) : List Job :=
  match scrape_single_location scrape cfg search_term hours_old
      cfg.results_wanted (loc.is_remote.getD false) loc.location
      (loc.distance.getD 50) with
  | .error _ => []
  | .ok jobs =>
    let jobs := if loc.is_remote.getD false then validate_remote_jobs jobs 150000 else jobs
    jobs.map (fun j => { j with location_name := some (loc.name.getD "unknown") })

/-- The USAJOBS loop of `search_all`: one call per location, tagged
`<name>_usajobs`; note it performs no remote validation. -/
def search_usajobs_step (usa : UsaOracle) (cfg : Config)
    (search_term : String) (hours_old : Int) (loc : LocationSpec) : List Job :=
  (usa { search_term, hours_old, results_wanted := cfg.results_wanted,
         is_remote := loc.is_remote.getD false,
         location := loc.location, distance := loc.distance.getD 50 }).map
    (fun j => { j with location_name := some (loc.name.getD "unknown" ++ "_usajobs") })

/-- The merged record list of `search_all` before the post-merge steps:
first loop (scrape + per-location validation + tag) then, when USAJOBS is
enabled, the USAJOBS loop. -/
def mergedJobs (cfg : Config) (scrape : ScrapeOracle) (usa : UsaOracle)
    (search_term : String) (hours_old : Int) (locations : List LocationSpec) : List Job :=
  (locations.flatMap (search_location_step scrape cfg search_term hours_old)) ++
  (if cfg.usajobs_enabled && apiKeyTruthy cfg.usajobs_api_key then
    locations.flatMap (search_usajobs_step usa cfg search_term hours_old)
   else [])

/-- Body of the `try` block of the `/search-all` handler. -/
def search_all_core (cfg : Config) (scrape : ScrapeOracle) (usa : UsaOracle)
    (request : JobRequest) : Except String JobResponse := do
  let hours_old ← match parse_since_when request.sinceWhen with
    | some h => pure (h : Int)
    | none => throw "ValueError: invalid literal for int()"
  let search_term := buildSearchTerm request.keywords
  let locations := searchLocations cfg request
  let locations_searched := locations.map (fun loc => loc.name.getD "unknown")
  let all_jobs := mergedJobs cfg scrape usa search_term hours_old locations
  let all_jobs := dedupe_jobs all_jobs
  let exclude_list := (request.excludeKeywords.getD []) ++ cfg.exclude_keywords
  let all_jobs := filter_jobs all_jobs exclude_list
  let all_jobs := if request.requireAllKeywords && keywordsTruthy request.keywords then
      andFilter (request.keywords.getD []) all_jobs
    else all_jobs
  let all_jobs := score_jobs cfg.scoring cfg.include_keywords all_jobs
  let all_jobs := clean_job_data all_jobs
  pure { error := false, jobs := all_jobs.take request.limit,
         locations_searched := some locations_searched }

/-- The `/search-all` handler with its outer `try`/`except`. -/
def search_all (cfg : Config) (scrape : ScrapeOracle) (usa : UsaOracle)
    (request : JobRequest) : JobResponse :=
  match search_all_core cfg scrape usa request with
  | .ok r => r
  | .error _ => { error := true, jobs := [] }

/-! ## Theorems -/

/-- C9: for every non-negative integer N (given by any non-empty digit
string), parsing the lookback specifier `<N>d` yields N×24 hours and parsing
`<N>w` yields N×168 hours. -/
theorem C9_lookback_conversion (ds : List Char) (hne : ds ≠ [])
    (hdig : ds.all Char.isDigit = true) :
    parse_since_when ⟨ds ++ ['d']⟩ = some (decVal ds * 24) ∧
    parse_since_when ⟨ds ++ ['w']⟩ = some (decVal ds * 168) := by
  have hint : pyInt ds = some (decVal ds) := by
    simp [pyInt, hne, hdig]
  constructor <;>
    simp [parse_since_when, List.dropLast_concat, List.getLast?_concat, hint] <;>
    omega

/-- Closed instance of `C9_lookback_conversion` at the digit string "7". -/
theorem C9_lookback_conversion_witness :
    (['7'] ≠ ([] : List Char)) ∧ (['7'].all Char.isDigit = true) ∧
    (parse_since_when ⟨['7'] ++ ['d']⟩ = some (decVal ['7'] * 24) ∧
     parse_since_when ⟨['7'] ++ ['w']⟩ = some (decVal ['7'] * 168)) :=
  ⟨by decide, by decide, C9_lookback_conversion ['7'] (by decide) (by decide)⟩

/-- C7: the exclusion filter is idempotent — filtering an already-filtered
list with the same exclude set yields the same list. -/
theorem C7_exclusion_filter_idempotent (jobs : List Job) (exclude_list : List String) :
    filter_jobs (filter_jobs jobs exclude_list) exclude_list
      = filter_jobs jobs exclude_list := by
  unfold filter_jobs
  by_cases h : exclude_list.isEmpty
  · simp [h]
  · simp [h, List.filter_filter]

/-- C3 counterexample: `scrape_single_location` has no `try`/`except` — when
the external scraping call raises, the exception propagates to the caller
instead of an empty list being returned. -/
theorem C3_counterexample :
    scrape_single_location (fun _ => Except.error "network down") {} "devops"
        24 50 true none 50 = Except.error "network down" ∧
    scrape_single_location (fun _ => Except.error "network down") {} "devops"
        24 50 true none 50 ≠ Except.ok [] := by
  exact ⟨rfl, by decide⟩

/-- C3 amended: the adapter propagates exceptions; it is the multi-location
per-location `try`/`except` in the caller that swallows them, so a raising
scrape contributes an empty list for that location instead of crashing. -/
theorem C3_adapter_error_swallowed_by_caller (e : String) (cfg : Config)
    (search_term : String) (hours_old : Int) (loc : LocationSpec) :
    search_location_step (fun _ => Except.error e) cfg search_term hours_old loc = [] :=
  rfl

/-- C6: any exception escaping the pipeline is caught at the request
boundary of both handlers and surfaced as a normally-returned response with
`error = true` and an empty job list (the handlers are total functions into
`JobResponse`, never an HTTP failure). -/
theorem C6_request_boundary_error (cfg : Config) (scr : ScrapeOracle)
    (usa : UsaOracle) (request : JobRequest) (e : String) :
    (get_jobs_core cfg scr usa request = .error e →
      get_jobs cfg scr usa request = { error := true, jobs := [] }) ∧
    (search_all_core cfg scr usa request = .error e →
      search_all cfg scr usa request = { error := true, jobs := [] }) := by
  constructor <;> intro h <;> simp [get_jobs, search_all, h]

/-- Closed instance of `C6_request_boundary_error`: a scrape failure inside
the pipeline yields the degraded success response from both handlers. -/
theorem C6_request_boundary_error_witness :
    (get_jobs_core {} (fun _ => Except.error "boom") (fun _ => [])
        { sinceWhen := "1d" } = .error "boom") ∧
    (get_jobs {} (fun _ => Except.error "boom") (fun _ => [])
        { sinceWhen := "1d" } = { error := true, jobs := [] }) ∧
    (search_all_core {} (fun _ => Except.error "boom") (fun _ => [])
        { sinceWhen := "x" } = .error "ValueError: invalid literal for int()") ∧
    (search_all {} (fun _ => Except.error "boom") (fun _ => [])
        { sinceWhen := "x" } = { error := true, jobs := [] }) :=
  ⟨by decide,
   (C6_request_boundary_error {} (fun _ => Except.error "boom") (fun _ => [])
     { sinceWhen := "1d" } "boom").1 (by decide),
   by decide,
   (C6_request_boundary_error {} (fun _ => Except.error "boom") (fun _ => [])
     { sinceWhen := "x" } "ValueError: invalid literal for int()").2 (by decide)⟩

/-- Boolean test for a record carrying a given `job_url`. -/
def urlIs (u : String) (j : Job) : Bool :=
  decide (j.job_url = u)

/-- Records with an empty (falsy) `job_url` pass through `dedupeAux`
untouched, whatever the `seen` set. -/
theorem dedupeAux_filter_empty_url (seen : List String) (l : List Job) :
    (dedupeAux seen l).filter (urlIs "") = l.filter (urlIs "") := by
  induction l generalizing seen with
  | nil => rfl
  | cons job rest ih =>
    unfold dedupeAux
    by_cases h1 : job.job_url ≠ "" ∧ job.job_url ∉ seen
    · rw [if_pos h1, List.filter_cons, List.filter_cons]
      have hu : urlIs "" job = false := by simp [urlIs, h1.1]
      simp [hu, ih]
    · rw [if_neg h1]
      by_cases h2 : job.job_url = ""
      · rw [if_pos h2, List.filter_cons, List.filter_cons]
        have hu : urlIs "" job = true := by simp [urlIs, h2]
        simp [hu, ih]
      · rw [if_neg h2, List.filter_cons]
        have hu : urlIs "" job = false := by simp [urlIs, h2]
        simp [hu, ih]

/-- Once a non-empty URL is in the `seen` set, `dedupeAux` emits no further
record carrying it. -/
theorem dedupeAux_filter_seen (seen : List String) (l : List Job) (u : String)
    (hu : u ≠ "") (hseen : u ∈ seen) :
    (dedupeAux seen l).filter (urlIs u) = [] := by
  induction l generalizing seen with
  | nil => rfl
  | cons job rest ih =>
    unfold dedupeAux
    by_cases h1 : job.job_url ≠ "" ∧ job.job_url ∉ seen
    · rw [if_pos h1, List.filter_cons]
      have hne : urlIs u job = false := by
        simp only [urlIs, decide_eq_false_iff_not]
        intro h
        exact h1.2 (h ▸ hseen)
      simp only [hne, Bool.false_eq_true, if_neg, ite_false]
      exact ih (job.job_url :: seen) (List.mem_cons_of_mem _ hseen)
    · rw [if_neg h1]
      by_cases h2 : job.job_url = ""
      · rw [if_pos h2, List.filter_cons]
        have hne : urlIs u job = false := by simp [urlIs, h2, Ne.symm hu]
        simp only [hne, Bool.false_eq_true, ite_false]
        exact ih seen hseen
      · rw [if_neg h2]
        exact ih seen hseen

/-- For a non-empty URL not yet seen, `dedupeAux` keeps exactly the first
record carrying it. -/
theorem dedupeAux_filter_unseen (seen : List String) (l : List Job) (u : String)
    (hu : u ≠ "") (hseen : u ∉ seen) :
    (dedupeAux seen l).filter (urlIs u) = (l.filter (urlIs u)).take 1 := by
  induction l generalizing seen with
  | nil => rfl
  | cons job rest ih =>
    unfold dedupeAux
    by_cases h1 : job.job_url ≠ "" ∧ job.job_url ∉ seen
    · rw [if_pos h1, List.filter_cons, List.filter_cons]
      by_cases he : urlIs u job = true
      · have hju : job.job_url = u := by simpa [urlIs] using he
        simp only [he, ite_true, List.take_succ_cons, List.take_zero]
        rw [dedupeAux_filter_seen _ _ _ hu (hju ▸ List.mem_cons_self _ _)]
      · simp only [he, Bool.false_eq_true, ite_false]
        have : u ∉ job.job_url :: seen := by
          intro hc
          rcases List.mem_cons.mp hc with hc | hc
          · exact he (by simp [urlIs, hc])
          · exact hseen hc
        exact ih (job.job_url :: seen) this
    · rw [if_neg h1]
      by_cases h2 : job.job_url = ""
      · rw [if_pos h2, List.filter_cons, List.filter_cons]
        have hne : urlIs u job = false := by simp [urlIs, h2, Ne.symm hu]
        simp only [hne, Bool.false_eq_true, ite_false]
        exact ih seen hseen
      · rw [if_neg h2, List.filter_cons]
        have hju : job.job_url ∈ seen := by
          by_contra hc
          exact h1 ⟨h2, hc⟩
        have hne : urlIs u job = false := by
          simp only [urlIs, decide_eq_false_iff_not]
          intro h
          exact hseen (h ▸ hju)
        simp only [hne, Bool.false_eq_true, ite_false]
        exact ih seen hseen

/-- C2: for every input list, among records sharing one identical non-empty
`job_url` only the first occurrence survives deduplication, and records with
an empty/missing `job_url` are never removed. -/
theorem C2_dedupe_first_occurrence (l : List Job) (u : String) (hu : u ≠ "") :
    (dedupe_jobs l).filter (urlIs u) = (l.filter (urlIs u)).take 1 ∧
    (dedupe_jobs l).filter (urlIs "") = l.filter (urlIs "") :=
  ⟨dedupeAux_filter_unseen [] l u hu (List.not_mem_nil u),
   dedupeAux_filter_empty_url [] l⟩

/-- Closed instance of `C2_dedupe_first_occurrence` on a three-record list:
two records share URL "u1" and one has no URL. -/
theorem C2_dedupe_first_occurrence_witness :
    ("u1" ≠ "") ∧
    ((dedupe_jobs [{ job_url := "u1", title := "a" }, { job_url := "" , title := "b" },
        { job_url := "u1", title := "c" }]).filter (urlIs "u1")
      = ([{ job_url := "u1", title := "a" }, { job_url := "", title := "b" },
        { job_url := "u1", title := "c" }].filter (urlIs "u1")).take 1 ∧
     (dedupe_jobs [{ job_url := "u1", title := "a" }, { job_url := "", title := "b" },
        { job_url := "u1", title := "c" }]).filter (urlIs "")
      = [{ job_url := "u1", title := "a" }, { job_url := "", title := "b" },
        { job_url := "u1", title := "c" }].filter (urlIs "")) :=
  ⟨by decide,
   C2_dedupe_first_occurrence
     [{ job_url := "u1", title := "a" }, { job_url := "", title := "b" },
      { job_url := "u1", title := "c" }] "u1" (by decide)⟩

/-- The `_is_manager` flag `scoreOne` writes. -/
theorem scoreOne_is_manager (sc : Scoring) (job : Job) :
    (scoreOne sc job).is_manager
      = some (sc.mgmt_titles.any (fun kw => pyIn kw (pyLower job.title))) :=
  rfl

/-- The `_is_senior_ic` flag `scoreOne` writes. -/
theorem scoreOne_is_senior_ic (sc : Scoring) (job : Job) :
    (scoreOne sc job).is_senior_ic
      = some ((sc.senior_ic_titles.any (fun kw => pyIn kw (pyLower job.title)))
          && !(sc.mgmt_titles.any (fun kw => pyIn kw (pyLower job.title)))) :=
  rfl

/-- C10: the scoring engine never sets `_is_manager` and `_is_senior_ic`
both true on a record — a management-keyword title forces `_is_senior_ic`
to false. -/
theorem C10_manager_senior_exclusive (sc : Scoring) (include_list : List String)
    (jobs : List Job) (j : Job) (hj : j ∈ score_jobs sc include_list jobs) :
    ¬(j.is_manager = some true ∧ j.is_senior_ic = some true) := by
  rintro ⟨hm, hs⟩
  have hj' : j ∈ scoreList sc jobs := (List.mem_insertionSort scoreRel).mp hj
  obtain ⟨x, _, hx⟩ := List.mem_map.mp hj'
  subst hx
  rw [scoreOne_is_manager] at hm
  rw [scoreOne_is_senior_ic] at hs
  have hm' := Option.some.inj hm
  have hs' := Option.some.inj hs
  rw [hm'] at hs'
  simp at hs'

/-- Closed instance of `C10_manager_senior_exclusive` on a record scored
with the default configuration. -/
theorem C10_manager_senior_exclusive_witness :
    (scoreOne defaultScoring { title := "Senior Engineering Manager" }
        ∈ score_jobs defaultScoring [] [{ title := "Senior Engineering Manager" }]) ∧
    ¬((scoreOne defaultScoring { title := "Senior Engineering Manager" }).is_manager = some true ∧
      (scoreOne defaultScoring { title := "Senior Engineering Manager" }).is_senior_ic = some true) :=
  ⟨by decide,
   C10_manager_senior_exclusive defaultScoring [] [{ title := "Senior Engineering Manager" }]
     (scoreOne defaultScoring { title := "Senior Engineering Manager" }) (by decide)⟩

/-- Key equality makes the descending order hold in both directions. -/
theorem scoreRel_of_score_eq {a b : Job} (h : a.score = b.score) : scoreRel a b := by
  simp [scoreRel, scoreKey, h]

/-- C8: the descending sort on `_score` is stable — records with equal
`_score` retain their pre-sort relative order.  Stated two ways: a pair
occurring in order in the scored-but-unsorted list still occurs in that
order after sorting, and the subsequence of records carrying any fixed
`_score` value is unchanged by the sort. -/
theorem C8_sort_stability (sc : Scoring) (include_list : List String)
    (jobs : List Job) :
    (∀ a b : Job, a.score = b.score →
      [a, b] <+ scoreList sc jobs → [a, b] <+ score_jobs sc include_list jobs) ∧
    (∀ s : Int, (score_jobs sc include_list jobs).filter (fun j => decide (j.score = some s))
      = (scoreList sc jobs).filter (fun j => decide (j.score = some s))) := by
  constructor
  · intro a b heq hab
    exact List.pair_sublist_insertionSort (scoreRel_of_score_eq heq) hab
  · intro s
    set p : Job → Bool := fun j => decide (j.score = some s) with hp
    set l := scoreList sc jobs
    have hpair : (l.filter p).Pairwise scoreRel := by
      apply List.pairwise_of_forall_mem_list
      intro a ha b hb
      have ha' : a.score = some s := of_decide_eq_true (List.mem_filter.mp ha).2
      have hb' : b.score = some s := of_decide_eq_true (List.mem_filter.mp hb).2
      exact scoreRel_of_score_eq (ha'.trans hb'.symm)
    have hsub : l.filter p <+ l.insertionSort scoreRel :=
      List.sublist_insertionSort hpair (List.filter_sublist l)
    have hsub2 : l.filter p <+ (l.insertionSort scoreRel).filter p := by
      have h := hsub.filter p
      rwa [List.filter_filter, (by funext a; exact Bool.and_self (p a) :
        (fun a => p a && p a) = p)] at h
    have hlen : ((l.insertionSort scoreRel).filter p).length = (l.filter p).length :=
      ((List.perm_insertionSort scoreRel l).filter p).length_eq
    exact (hsub2.eq_of_length hlen.symm).symm

/-- Closed instance of `C8_sort_stability`: two equal-score records keep
their order through `score_jobs`. -/
theorem C8_sort_stability_witness :
    ((scoreOne defaultScoring { title := "a" }).score
        = (scoreOne defaultScoring { title := "b" }).score) ∧
    ([scoreOne defaultScoring { title := "a" }, scoreOne defaultScoring { title := "b" }]
        <+ scoreList defaultScoring [{ title := "a" }, { title := "b" }]) ∧
    ([scoreOne defaultScoring { title := "a" }, scoreOne defaultScoring { title := "b" }]
        <+ score_jobs defaultScoring [] [{ title := "a" }, { title := "b" }]) :=
  ⟨by decide, List.Sublist.refl _,
   (C8_sort_stability defaultScoring [] [{ title := "a" }, { title := "b" }]).1
     (scoreOne defaultScoring { title := "a" }) (scoreOne defaultScoring { title := "b" })
     (by decide) (List.Sublist.refl _)⟩

/-- The normalized location text `validate_remote_jobs` inspects:
`str(job.get("location") or "").lower().strip()`. -/
def locNorm (job : Job) : String :=
  pyStrip (pyLower job.location)

/-- The generic-remote-marker test of `validate_remote_jobs`. -/
def hasGenericMarker (job : Job) : Bool :=
  generic_locations.any (fun gen => pyIn gen (locNorm job))

/-- The specific-location test of `validate_remote_jobs`: the location text
contains a comma or matches the state-abbreviation pattern. -/
def looksSpecific (job : Job) : Bool :=
  (state_abbrevs.any (fun st =>
    pyIn (", " ++ st) (", " ++ locNorm job) || pyEndsWith (locNorm job) (" " ++ st)))
  || pyIn "," (locNorm job)

/-- A location that looks specific cannot be the empty string. -/
theorem locNorm_ne_empty_of_looksSpecific {job : Job}
    (h : looksSpecific job = true) : locNorm job ≠ "" := by
  intro he
  rw [looksSpecific, he] at h
  exact absurd h (by decide)

/-- The decision tree of `validateJob`, phrased with the named tests. -/
theorem validateJob_eq (t : Int) (job : Job) :
    validateJob t job =
      if locNorm job = "" then some { job with remote_validated := some true }
      else if hasGenericMarker job then some { job with remote_validated := some true }
      else if numGE (maxSalary job) t then
        some { job with remote_validated := some false, high_salary := some true }
      else if looksSpecific job then none
      else some { job with remote_validated := some true } :=
  rfl

/-- C1: a record whose normalized location looks specific (comma or state
abbreviation) and carries no generic-remote marker is dropped by remote
validation when `max(min_amount or 0, max_amount or 0)` is below 150,000,
and kept with `_high_salary = true` when that salary is at least 150,000; a
record whose location contains the marker "remote" is kept regardless of
salary. -/
theorem C1_remote_validation :
    (∀ (job : Job) (s : Int), hasGenericMarker job = false → looksSpecific job = true →
      maxSalary job = .val s → s < 150000 →
      validate_remote_jobs [job] 150000 = []) ∧
    (∀ (job : Job) (s : Int), hasGenericMarker job = false → looksSpecific job = true →
      maxSalary job = .val s → 150000 ≤ s →
      validate_remote_jobs [job] 150000
        = [{ job with remote_validated := some false, high_salary := some true }]) ∧
    (∀ job : Job, pyIn "remote" (locNorm job) = true →
      validate_remote_jobs [job] 150000 = [{ job with remote_validated := some true }]) := by
  refine ⟨?_, ?_, ?_⟩
  · intro job s hgen hspec hsal hlt
    have hne : ¬(locNorm job = "") := locNorm_ne_empty_of_looksSpecific hspec
    have hge : ¬(numGE (maxSalary job) 150000 = true) := by
      rw [hsal]; simp [numGE]; omega
    have hv : validateJob 150000 job = none := by
      rw [validateJob_eq, if_neg hne, if_neg (by simp [hgen]), if_neg hge, if_pos hspec]
    simp [validate_remote_jobs, hv]
  · intro job s hgen hspec hsal hge
    have hne : ¬(locNorm job = "") := locNorm_ne_empty_of_looksSpecific hspec
    have hge' : numGE (maxSalary job) 150000 = true := by
      rw [hsal]; simpa [numGE] using hge
    have hv : validateJob 150000 job
        = some { job with remote_validated := some false, high_salary := some true } := by
      rw [validateJob_eq, if_neg hne, if_neg (by simp [hgen]), if_pos hge']
    simp [validate_remote_jobs, hv]
  · intro job hrem
    have hne : ¬(locNorm job = "") := by
      intro he
      rw [he] at hrem
      exact absurd hrem (by decide)
    have hgen : hasGenericMarker job = true := by
      simp [hasGenericMarker, generic_locations, hrem]
    have hv : validateJob 150000 job = some { job with remote_validated := some true } := by
      rw [validateJob_eq, if_neg hne, if_pos hgen]
    simp [validate_remote_jobs, hv]

/-- The example record used by the spec: location "New York, NY" with a given maximum
salary. -/
def jobNewYork (mx : Int) : Job :=
  { title := "Platform Engineer", location := "New York, NY", job_url := "u1",
    max_amount := .val mx }

/-- Closed instance of `C1_remote_validation` at the examples from the spec:
"New York, NY" at 120,000 is dropped, at 160,000 kept with
`_high_salary = true`, and location "Remote" is kept. -/
theorem C1_remote_validation_witness :
    (hasGenericMarker (jobNewYork 120000) = false ∧ looksSpecific (jobNewYork 120000) = true ∧
     maxSalary (jobNewYork 120000) = .val 120000 ∧ (120000 : Int) < 150000 ∧
     validate_remote_jobs [jobNewYork 120000] 150000 = []) ∧
    (maxSalary (jobNewYork 160000) = .val 160000 ∧ (150000 : Int) ≤ 160000 ∧
     validate_remote_jobs [jobNewYork 160000] 150000
       = [{ jobNewYork 160000 with remote_validated := some false, high_salary := some true }]) ∧
    (pyIn "remote" (locNorm { location := "Remote" }) = true ∧
     validate_remote_jobs [{ location := "Remote" }] 150000
       = [{ location := "Remote", remote_validated := some true }]) :=
  ⟨⟨by decide, by decide, by decide, by decide,
    C1_remote_validation.1 (jobNewYork 120000) 120000 (by decide) (by decide) (by decide) (by decide)⟩,
   ⟨by decide, by decide,
    C1_remote_validation.2.1 (jobNewYork 160000) 160000 (by decide) (by decide) (by decide) (by decide)⟩,
   ⟨by decide,
    C1_remote_validation.2.2 { location := "Remote" } (by decide)⟩⟩

/-- A record carrying a `datetime` in `date_posted`, as the USAJOBS adapter
produces. -/
def jobDated : Job :=
  { title := "SRE", job_url := "u2", date_posted := .dt "2024-05-01T00:00:00" }

/-- C4 counterexample: a record present in a `/get-jobs` response has had a
source-provided field mutated — `clean_job_data` serialized its
`date_posted` from a datetime to a string. -/
theorem C4_counterexample :
    ((get_jobs {} (fun _ => Except.ok [jobDated]) (fun _ => [])
        { sinceWhen := "1d" }).jobs.map (fun j => j.date_posted)
      = [DateVal.s "2024-05-01T00:00:00"]) ∧
    jobDated.date_posted = DateVal.dt "2024-05-01T00:00:00" ∧
    DateVal.s "2024-05-01T00:00:00" ≠ DateVal.dt "2024-05-01T00:00:00" := by
  decide

/-- `validateJob` never changes the source-provided fields of a record it
keeps. -/
theorem validateJob_srcView {t : Int} {x j : Job}
    (h : validateJob t x = some j) : srcView j = srcView x := by
  rw [validateJob_eq] at h
  split_ifs at h
  · cases h; rfl
  · cases h; rfl
  · cases h; rfl
  · cases h; rfl

/-- Membership survives `dedupeAux` unchanged record-wise. -/
theorem mem_of_mem_dedupeAux {j : Job} :
    ∀ {seen : List String} {l : List Job}, j ∈ dedupeAux seen l → j ∈ l := by
  intro seen l
  induction l generalizing seen with
  | nil => intro h; exact absurd h (List.not_mem_nil j)
  | cons job rest ih =>
    intro h
    unfold dedupeAux at h
    by_cases h1 : job.job_url ≠ "" ∧ job.job_url ∉ seen
    · rw [if_pos h1] at h
      rcases List.mem_cons.mp h with h | h
      · exact h ▸ List.mem_cons_self _ _
      · exact List.mem_cons_of_mem _ (ih h)
    · rw [if_neg h1] at h
      by_cases h2 : job.job_url = ""
      · rw [if_pos h2] at h
        rcases List.mem_cons.mp h with h | h
        · exact h ▸ List.mem_cons_self _ _
        · exact List.mem_cons_of_mem _ (ih h)
      · rw [if_neg h2] at h
        exact List.mem_cons_of_mem _ (ih h)

/-- C4 amended: no pipeline stage except the final sanitization touches a
source-provided fields of a record — filtering stages pass records through
unchanged, scoring and remote validation only write extension fields — and
sanitization changes source fields only by the NaN-to-missing and
datetime-to-string replacements of `cleanSrc`. -/
theorem C4_source_fields_frame (sc : Scoring) (include_list exclude_list kws : List String)
    (t : Int) (jobs : List Job) :
    (∀ j ∈ validate_remote_jobs jobs t, ∃ j' ∈ jobs, srcView j = srcView j') ∧
    (∀ j ∈ dedupe_jobs jobs, j ∈ jobs) ∧
    (∀ j ∈ filter_jobs jobs exclude_list, j ∈ jobs) ∧
    (∀ j ∈ andFilter kws jobs, j ∈ jobs) ∧
    (∀ j ∈ score_jobs sc include_list jobs, ∃ j' ∈ jobs, srcView j = srcView j') ∧
    (∀ j ∈ clean_job_data jobs, ∃ j' ∈ jobs, srcView j = cleanSrc (srcView j')) := by
  refine ⟨?_, ?_, ?_, ?_, ?_, ?_⟩
  · intro j hj
    obtain ⟨x, hx, hfx⟩ := List.mem_filterMap.mp hj
    exact ⟨x, hx, validateJob_srcView hfx⟩
  · intro j hj
    exact mem_of_mem_dedupeAux hj
  · intro j hj
    unfold filter_jobs at hj
    by_cases h : exclude_list.isEmpty
    · rwa [if_pos h] at hj
    · rw [if_neg h] at hj
      exact (List.mem_filter.mp hj).1
  · intro j hj
    exact (List.mem_filter.mp hj).1
  · intro j hj
    obtain ⟨x, hx, hfx⟩ := List.mem_map.mp ((List.mem_insertionSort scoreRel).mp hj)
    exact ⟨x, hx, by rw [← hfx]; rfl⟩
  · intro j hj
    obtain ⟨x, hx, hfx⟩ := List.mem_map.mp hj
    exact ⟨x, hx, by rw [← hfx]; rfl⟩

/-- Closed instance of `C4_source_fields_frame`: the sanitized `jobDated`
relates to the original through `cleanSrc`, and filtering stages pass a
record through unchanged. -/
theorem C4_source_fields_frame_witness :
    (cleanJob jobDated ∈ clean_job_data [jobDated]) ∧
    (∃ j' ∈ [jobDated], srcView (cleanJob jobDated) = cleanSrc (srcView j')) ∧
    (jobDated ∈ filter_jobs [jobDated] []) ∧ (jobDated ∈ [jobDated]) :=
  ⟨by decide,
   (C4_source_fields_frame defaultScoring [] [] [] 150000 [jobDated]).2.2.2.2.2
     (cleanJob jobDated) (by decide),
   by decide,
   (C4_source_fields_frame defaultScoring [] [] [] 150000 [jobDated]).2.2.1
     jobDated (by decide)⟩

/-- A configured non-remote location, for exercising the fan-out. -/
def cfgOneCity : Config :=
  { locations := [{ name := some "sf", is_remote := some false,
                    location := some "San Francisco, CA", distance := some 50 }] }

/-- C5 counterexample: the request specifies remote (`isRemote = true`), yet
`search_all` applies no remote validation — the own `is_remote` flag
of the configured location (false here) controls it — so a low-salary "New York, NY"
record survives to the response. -/
theorem C5_counterexample :
    (search_all cfgOneCity (fun _ => Except.ok [jobNewYork 120000]) (fun _ => [])
        { sinceWhen := "1d", isRemote := some true }).jobs.map (fun j => j.location)
      = ["New York, NY"] ∧
    validate_remote_jobs [jobNewYork 120000] 150000 = [] := by
  decide

/-- The AND-mode stage as `search_all` guards it. -/
def andStage (request : JobRequest) (jobs : List Job) : List Job :=
  if request.requireAllKeywords && keywordsTruthy request.keywords then
    andFilter (request.keywords.getD []) jobs
  else jobs

/-- C5 amended: in multi-location mode remote validation runs per location
*before* merging, controlled by the `is_remote` flag of each configured
location (not by the request flag), and the USAJOBS loop performs no validation at all
(see `search_location_step` / `search_usajobs_step` inside `mergedJobs`);
the post-merge steps then run in the fixed order deduplication, exclusion
filter, AND-mode filter, scoring with stable descending sort, sanitization,
truncation. -/
theorem C5_pipeline_order (cfg : Config) (scr : ScrapeOracle) (usa : UsaOracle)
    (request : JobRequest) (hours : Nat)
    (hp : parse_since_when request.sinceWhen = some hours) :
    search_all cfg scr usa request =
      { error := false,
        jobs := (clean_job_data (score_jobs cfg.scoring cfg.include_keywords
          (andStage request (filter_jobs (dedupe_jobs
              (mergedJobs cfg scr usa (buildSearchTerm request.keywords) (hours : Int)
                (searchLocations cfg request)))
            ((request.excludeKeywords.getD []) ++ cfg.exclude_keywords))))).take request.limit,
        locations_searched :=
          some ((searchLocations cfg request).map (fun loc => loc.name.getD "unknown")) } := by
  simp [search_all, search_all_core, hp, andStage]
  rfl

/-- Closed instance of `C5_pipeline_order` at the one-city configuration. -/
theorem C5_pipeline_order_witness :
    (parse_since_when "1d" = some 24) ∧
    search_all cfgOneCity (fun _ => Except.ok [jobNewYork 120000]) (fun _ => [])
        { sinceWhen := "1d", isRemote := some true } =
      { error := false,
        jobs := (clean_job_data (score_jobs cfgOneCity.scoring cfgOneCity.include_keywords
          (andStage { sinceWhen := "1d", isRemote := some true }
            (filter_jobs (dedupe_jobs
                (mergedJobs cfgOneCity (fun _ => Except.ok [jobNewYork 120000]) (fun _ => [])
                  (buildSearchTerm (none : Option (List String))) 24
                  (searchLocations cfgOneCity { sinceWhen := "1d", isRemote := some true })))
              (([] : List String) ++ cfgOneCity.exclude_keywords))))).take 10,
        locations_searched :=
          some ((searchLocations cfgOneCity { sinceWhen := "1d", isRemote := some true }).map
            (fun loc => loc.name.getD "unknown")) } :=
  ⟨by decide,
   C5_pipeline_order cfgOneCity (fun _ => Except.ok [jobNewYork 120000]) (fun _ => [])
     { sinceWhen := "1d", isRemote := some true } 24 (by decide)⟩

end JobScout
